import Mathlib

/-!
Shallow embedding of tasks.py, a pyinvoke task file that wraps
docker-compose developer workflows for the nautobot-plugin-nornir
repository.  Python functions become Lean functions.  Process execution
is modelled by an explicit context carrying the configuration record, a
filesystem oracle (which paths are regular files) and a run capability
that maps each attempted shell invocation to a captured result or a
raised failure.  Every effectful helper returns the ordered trace of
shell invocations it attempted together with its Python return value,
or the propagated exception.
-/

/-- Errors that propagate out of the embedded code: the ValueError
raised by strtobool on an unrecognized token (the InvalidArgument of the
error taxonomy in the design document), and a nonzero child-process exit
raised by the run capability (UnexpectedExit). -/
inductive Err where
  | invalidArgument (arg : String)
  | unexpectedExit (cmd : String)
deriving DecidableEq

/-- Python keyword-argument values appearing in tasks.py: booleans
(pty=True) and strings (hide=out). -/
inductive KwVal where
  | pybool (b : Bool)
  | pystr (s : String)
deriving DecidableEq

/-- Result object produced by a successful context.run invocation; only
its captured stdout is ever read by tasks.py. -/
structure RunResult where
  stdout : String
deriving DecidableEq

/-- One attempted context.run invocation: the command string, the env
keyword argument when one was passed (docker_compose passes env, the
direct local run does not), and the remaining keyword arguments in the
order they were supplied. -/
structure RunCall where
  cmd : String
  env : Option (List (String × String))
  kwargs : List (String × KwVal)
deriving DecidableEq

/-- A Python value that is either already a boolean or a string, the two
input shapes is_truthy handles. -/
inductive BoolOrStr where
  | ofBool (b : Bool)
  | ofStr (s : String)
deriving DecidableEq

/-- CPython distutils.util.strtobool, imported at tasks.py line 3: lower
the string, return 1 on a recognized true token, 0 on a recognized false
token, and raise ValueError otherwise; the raised error carries the
lowered value. -/
def strtobool (val : String) : Except Err Nat :=
  let v := val.toLower
  if v ∈ ["y", "yes", "t", "true", "on", "1"] then Except.ok 1
  else if v ∈ ["n", "no", "f", "false", "off", "0"] then Except.ok 0
  else Except.error (Err.invalidArgument v)

/-- Embeds is_truthy (tasks.py lines 8 to 20): a boolean is returned
unchanged, a string goes through strtobool and the resulting integer is
converted to a boolean with bool(...). -/
def is_truthy : BoolOrStr → Except Err Bool
  | BoolOrStr.ofBool b => Except.ok b
  | BoolOrStr.ofStr s => Except.map (fun n => n != 0) (strtobool s)

/-- Configuration record for the nautobot_plugin_nornir namespace
(tasks.py lines 26 to 37).  The Python key named local is embedded as
local_mode because local is a Lean keyword. -/
structure Config where
  nautobot_ver : String
  project_name : String
  python_ver : String
  local_mode : BoolOrStr
  compose_dir : String
  compose_files : List String

/-- Invocation context: the configuration record, the filesystem oracle
standing for os.path.isfile, and the run capability standing for
context.run, which either returns a result object or raises. -/
structure Context where
  cfg : Config
  isfile : String → Bool
  run : RunCall → Except Err RunResult

/-- Embeds os.path.join for two components on a posix runtime: an
absolute second component replaces the first, otherwise the components
are joined with a single separator. -/
def pathJoin (a b : String) : String :=
  if b.toList.take 1 = ['/'] then b
  else if a = "" then b
  else if a.toList.getLast? = some '/' then a ++ b
  else a ++ "/" ++ b

/-- Base environment mapping built by docker_compose (tasks.py lines 67
to 70). -/
def build_env (cfg : Config) : List (String × String) :=
  [("NAUTOBOT_VER", cfg.nautobot_ver), ("PYTHON_VER", cfg.python_ver)]

/-- Leading part of the composed docker-compose command line (tasks.py
line 71): project name and quoted project directory. -/
def compose_base (cfg : Config) : String :=
  "docker-compose --project-name " ++ cfg.project_name
    ++ " --project-directory \"" ++ cfg.compose_dir ++ "\""

/-- Clause appended for one compose file that exists on disk (tasks.py
line 75). -/
def fClause (cfg : Config) (f : String) : String :=
  " -f \"" ++ pathJoin cfg.compose_dir f ++ "\""

/-- Full command string composed by docker_compose (tasks.py lines 71 to
76): the base, then one -f clause per configured compose file whose
joined path is a file, in configuration order, then the caller fragment. -/
def docker_compose_command (cfg : Config) (isfile : String → Bool) (command : String) : String :=
  (cfg.compose_files.foldl
    (fun acc f => if isfile (pathJoin cfg.compose_dir f) then acc ++ fClause cfg f else acc)
    (compose_base cfg)) ++ " " ++ command

/-- Embeds docker_compose (tasks.py lines 59 to 78): compose the command
line, then run it with env set to the base environment and the keyword
arguments passed through; the print on line 77 is pure observability and
is not modelled.  Returns the attempted invocation and the result of the
run capability. -/
def docker_compose (ctx : Context) (command : String) (kwargs : List (String × KwVal)) :
    RunCall × Except Err RunResult :=
  let call : RunCall :=
    { cmd := docker_compose_command ctx.cfg ctx.isfile command
      env := some (build_env ctx.cfg)
      kwargs := kwargs }
  (call, ctx.run call)

/-- Decides whether the needle occurs as a contiguous run inside the
haystack, on lists of characters. -/
def subLst : List Char → List Char → Bool
  | needle, [] => needle.isEmpty
  | needle, c :: rest => needle.isPrefixOf (c :: rest) || subLst needle rest

/-- Embeds the Python membership test needle in haystack on strings:
substring containment. -/
def strIn (needle haystack : String) : Bool :=
  subLst needle.toList haystack.toList

/-- Single quote character, used by the run form composed at tasks.py
line 92. -/
def squote : String := String.singleton (Char.ofNat 39)

/-- Embeds run_command (tasks.py lines 81 to 94).  When local mode is
truthy the command runs directly with the caller keyword arguments.
Otherwise the running services are queried through docker_compose with
hide set to out; if the string nautobot occurs in the captured stdout
the exec form is composed, else the run form with the command as a
single-quoted entrypoint; the composed fragment then runs through
docker_compose with pty set to True.  Neither branch of the Python
function has a return statement, so the Python return value is None
whenever no exception is raised; the embedding returns Option RunResult
and a success is always Except.ok none. -/
def run_command (ctx : Context) (command : String) (kwargs : List (String × KwVal)) :
    List RunCall × Except Err (Option RunResult) :=
  match is_truthy ctx.cfg.local_mode with
  | Except.error e => ([], Except.error e)
  | Except.ok true =>
    let call : RunCall := { cmd := command, env := none, kwargs := kwargs }
    match ctx.run call with
    | Except.error e => ([call], Except.error e)
    | Except.ok _ => ([call], Except.ok none)
  | Except.ok false =>
    match docker_compose ctx "ps --services --filter status=running" [("hide", KwVal.pystr "out")] with
    | (statusCall, Except.error e) => ([statusCall], Except.error e)
    | (statusCall, Except.ok results) =>
      let compose_command :=
        if strIn "nautobot" results.stdout then "exec nautobot " ++ command
        else "run --entrypoint " ++ squote ++ command ++ squote ++ " nautobot"
      match docker_compose ctx compose_command [("pty", KwVal.pybool true)] with
      | (finalCall, Except.error e) => ([statusCall, finalCall], Except.error e)
      | (finalCall, Except.ok _) => ([statusCall, finalCall], Except.ok none)

/-- Embeds the black task (tasks.py lines 228 to 242): pick the command
by the autoformat flag and dispatch through run_command. -/
def black (ctx : Context) (autoformat : Bool) : List RunCall × Except Err (Option RunResult) :=
  run_command ctx ((if autoformat then "black" else "black --check --diff") ++ " .") []

/-- Embeds the bandit task (tasks.py lines 253 to 257). -/
def bandit (ctx : Context) : List RunCall × Except Err (Option RunResult) :=
  run_command ctx "bandit --recursive . --configfile .bandit.yml" []

/-- Embeds the pydocstyle task (tasks.py lines 245 to 250). -/
def pydocstyle (ctx : Context) : List RunCall × Except Err (Option RunResult) :=
  run_command ctx "pydocstyle --config=.pydocstyle.ini ." []

/-- Embeds the yamllint task (tasks.py lines 267 to 275). -/
def yamllint (ctx : Context) : List RunCall × Except Err (Option RunResult) :=
  run_command ctx "yamllint . --format standard" []

/-- Embeds the first definition of the flake8 task (tasks.py lines 260
to 264). -/
def flake8_first (ctx : Context) : List RunCall × Except Err (Option RunResult) :=
  run_command ctx "flake8 ." []

/-- Embeds the second definition of the flake8 task (tasks.py lines 278
to 282), the one that shadows the first at module load and is therefore
the definition the tests task calls. -/
def flake8_second (ctx : Context) : List RunCall × Except Err (Option RunResult) :=
  run_command ctx "flake8 ." []

/-- Embeds the pylint task (tasks.py lines 221 to 225). -/
def pylint (ctx : Context) : List RunCall × Except Err (Option RunResult) :=
  run_command ctx
    "pylint --init-hook \"import nautobot; nautobot.setup()\" --rcfile pyproject.toml nautobot_plugin_nornir"
    []

/-- Embeds the unittest task (tasks.py lines 200 to 218): base coverage
command over the label, then the keepdb, failfast and buffer suffixes in
that order when the corresponding flag is set. -/
def unittest (ctx : Context) (keepdb : Bool) (label : String) (failfast : Bool) (buffer : Bool) :
    List RunCall × Except Err (Option RunResult) :=
  run_command ctx
    ("coverage run --module nautobot.core.cli test " ++ label
      ++ (if keepdb then " --keepdb" else "")
      ++ (if failfast then " --failfast" else "")
      ++ (if buffer then " --buffer" else ""))
    []

/-- Embeds the tests task (tasks.py lines 285 to 303): call black,
bandit, pydocstyle, yamllint, flake8 (the shadowing definition), pylint
and unittest with their default flags, in that order; a raised exception
in any call aborts the rest of the body and propagates, as in Python
straight-line statements.  Defaults: black autoformat False, unittest
keepdb False, label nautobot_plugin_nornir, failfast False, buffer True. -/
def tests (ctx : Context) : List RunCall × Except Err (Option RunResult) :=
  match black ctx false with
  | (t1, Except.error e) => (t1, Except.error e)
  | (t1, Except.ok _) =>
    match bandit ctx with
    | (t2, Except.error e) => (t1 ++ t2, Except.error e)
    | (t2, Except.ok _) =>
      match pydocstyle ctx with
      | (t3, Except.error e) => (t1 ++ t2 ++ t3, Except.error e)
      | (t3, Except.ok _) =>
        match yamllint ctx with
        | (t4, Except.error e) => (t1 ++ t2 ++ t3 ++ t4, Except.error e)
        | (t4, Except.ok _) =>
          match flake8_second ctx with
          | (t5, Except.error e) => (t1 ++ t2 ++ t3 ++ t4 ++ t5, Except.error e)
          | (t5, Except.ok _) =>
            match pylint ctx with
            | (t6, Except.error e) => (t1 ++ t2 ++ t3 ++ t4 ++ t5 ++ t6, Except.error e)
            | (t6, Except.ok _) =>
              match unittest ctx false "nautobot_plugin_nornir" false true with
              | (t7, Except.error e) => (t1 ++ t2 ++ t3 ++ t4 ++ t5 ++ t6 ++ t7, Except.error e)
              | (t7, Except.ok _) => (t1 ++ t2 ++ t3 ++ t4 ++ t5 ++ t6 ++ t7, Except.ok none)

/-- Type of an embedded task body taking only the context. -/
def TaskFn : Type := Context → List RunCall × Except Err (Option RunResult)

/-- Specification-side sequencer: invoke the listed task bodies in
order, halting at the first failure, which is propagated unchanged; no
later body runs and no continuation or aggregation happens. -/
def runSeq : List TaskFn → Context → List RunCall × Except Err (Option RunResult)
  | [], _ => ([], Except.ok none)
  | t :: rest, ctx =>
    match t ctx with
    | (tr, Except.error e) => (tr, Except.error e)
    | (tr, Except.ok _) =>
      match runSeq rest ctx with
      | (tr2, r) => (tr ++ tr2, r)

/-- Fixed ordered sequence of sub-task bodies the tests task steps
through, with the default flags it passes. -/
def testsSubtasks : List TaskFn :=
  [fun ctx => black ctx false,
   bandit,
   pydocstyle,
   yamllint,
   flake8_second,
   pylint,
   fun ctx => unittest ctx false "nautobot_plugin_nornir" false true]

/-- Concatenation of a list of strings, used to state the shape of the
composed command line. -/
def strConcat : List String → String
  | [] => ""
  | s :: rest => s ++ strConcat rest

/-- Demo configuration used by concrete evaluation theorems. -/
def cfgDemo (loc : BoolOrStr) : Config :=
  { nautobot_ver := "v1.0.0a1"
    project_name := "nautobot_plugin_nornir"
    python_ver := "3.6"
    local_mode := loc
    compose_dir := "development"
    compose_files := [] }

/-- Concrete context in local mode whose run capability always succeeds
with stdout hello. -/
def ctxLocal : Context :=
  { cfg := cfgDemo (BoolOrStr.ofBool true)
    isfile := fun _ => false
    run := fun _ => Except.ok { stdout := "hello" } }

/-- Concrete context in non-local mode whose run capability always
succeeds with a services listing containing the line nautobot. -/
def ctxRunning : Context :=
  { cfg := cfgDemo (BoolOrStr.ofBool false)
    isfile := fun _ => false
    run := fun _ => Except.ok { stdout := "nautobot\n" } }

/-- Concrete context in non-local mode whose services listing contains
nautobot only as part of the longer service name nautobot-worker. -/
def ctxWorker : Context :=
  { cfg := cfgDemo (BoolOrStr.ofBool false)
    isfile := fun _ => false
    run := fun _ => Except.ok { stdout := "nautobot-worker\n" } }

/-- Concrete context in local mode whose run capability always raises. -/
def ctxFail : Context :=
  { cfg := cfgDemo (BoolOrStr.ofBool true)
    isfile := fun _ => false
    run := fun call => Except.error (Err.unexpectedExit call.cmd) }

/-- C5: for every boolean input the truthy parser returns it unchanged;
the embedding is a pure function, so there are no side effects. -/
theorem is_truthy_bool_id (b : Bool) : is_truthy (BoolOrStr.ofBool b) = Except.ok b := rfl

/-- C3: on a string input the truthy parser returns true exactly on the
recognized true tokens up to lowercasing, false exactly on the
recognized false tokens, and otherwise fails with the InvalidArgument
error carrying the lowered string. -/
theorem is_truthy_string_cases (s : String) :
    is_truthy (BoolOrStr.ofStr s) =
      if s.toLower ∈ ["y", "yes", "t", "true", "on", "1"] then Except.ok true
      else if s.toLower ∈ ["n", "no", "f", "false", "off", "0"] then Except.ok false
      else Except.error (Err.invalidArgument s.toLower) := by
  simp only [is_truthy, strtobool]
  split_ifs <;> simp [Except.map]

/-- C6: every invocation of docker_compose passes an environment mapping
that is exactly the base environment, which contains the NAUTOBOT_VER
and PYTHON_VER tags sourced from the configuration record. -/
theorem docker_compose_env_tags (ctx : Context) (command : String)
    (kwargs : List (String × KwVal)) :
    (docker_compose ctx command kwargs).1.env = some (build_env ctx.cfg)
    ∧ ("NAUTOBOT_VER", ctx.cfg.nautobot_ver) ∈ build_env ctx.cfg
    ∧ ("PYTHON_VER", ctx.cfg.python_ver) ∈ build_env ctx.cfg := by
  refine ⟨rfl, ?_, ?_⟩ <;> simp [build_env]

/-- C10: the two source definitions of the flake8 task have
extensionally equal bodies, so the second definition shadowing the first
changes no observable behavior. -/
theorem flake8_shadowing_equal (ctx : Context) : flake8_second ctx = flake8_first ctx := rfl

/-- Folding a conditional clause-appender over a list equals appending
the concatenation of the clauses of the kept elements, in order. -/
theorem foldl_clauses (p : String → Bool) (cl : String → String) :
    ∀ (files : List String) (acc : String),
      List.foldl (fun a f => if p f then a ++ cl f else a) acc files
        = acc ++ strConcat ((files.filter p).map cl) := by
  intro files
  induction files with
  | nil => intro acc; simp [strConcat, String.append_empty]
  | cons f rest ih =>
    intro acc
    simp only [List.foldl_cons, List.filter_cons]
    by_cases hp : p f
    · simp [hp, strConcat, ih, String.append_assoc]
    · simp [hp, ih]

/-- C2: the composed docker-compose command line is the base followed by
one -f clause per configured compose file whose resolved path exists, in
configuration order, nonexistent files silently skipped; in particular
for the list [A, B] with only B existing exactly the clause for B
appears. -/
theorem docker_compose_file_clauses :
    (∀ (cfg : Config) (isfile : String → Bool) (command : String),
      docker_compose_command cfg isfile command
        = compose_base cfg
          ++ strConcat ((cfg.compose_files.filter
              (fun f => isfile (pathJoin cfg.compose_dir f))).map (fClause cfg))
          ++ " " ++ command)
    ∧ docker_compose_command
        { nautobot_ver := "v1.0.0a1", project_name := "nautobot_plugin_nornir",
          python_ver := "3.6", local_mode := BoolOrStr.ofBool false,
          compose_dir := "development", compose_files := ["A", "B"] }
        (fun path => path == "development/B") "up"
      = "docker-compose --project-name nautobot_plugin_nornir"
          ++ " --project-directory \"development\" -f \"development/B\" up" := by
  constructor
  · intro cfg isfile command
    simp only [docker_compose_command]
    rw [foldl_clauses]
  · decide

/-- Shared shape lemma for the non-local branch of run_command: when
local mode is falsy and the running-services query succeeds with some
result object, the attempted invocations are exactly the query followed
by the composed dispatch command, whose fragment is the exec form when
nautobot occurs in the captured stdout and the single-quoted run form
otherwise. -/
theorem run_command_nonlocal_trace (ctx : Context) (command : String)
    (kwargs : List (String × KwVal)) (results : RunResult)
    (hloc : is_truthy ctx.cfg.local_mode = Except.ok false)
    (hq : (docker_compose ctx "ps --services --filter status=running"
            [("hide", KwVal.pystr "out")]).2 = Except.ok results) :
    run_command ctx command kwargs =
      ([(docker_compose ctx "ps --services --filter status=running"
           [("hide", KwVal.pystr "out")]).1,
        (docker_compose ctx
           (if strIn "nautobot" results.stdout then "exec nautobot " ++ command
            else "run --entrypoint " ++ squote ++ command ++ squote ++ " nautobot")
           [("pty", KwVal.pybool true)]).1],
       match (docker_compose ctx
           (if strIn "nautobot" results.stdout then "exec nautobot " ++ command
            else "run --entrypoint " ++ squote ++ command ++ squote ++ " nautobot")
           [("pty", KwVal.pybool true)]).2 with
       | Except.error e => Except.error e
       | Except.ok _ => Except.ok none) := by
  unfold run_command
  rw [hloc]
  rcases hdc : docker_compose ctx "ps --services --filter status=running"
      [("hide", KwVal.pystr "out")] with ⟨sc, r⟩
  rw [hdc] at hq
  replace hq : r = Except.ok results := hq
  subst hq
  dsimp only
  rcases hdc2 : docker_compose ctx
      (if strIn "nautobot" results.stdout then "exec nautobot " ++ command
       else "run --entrypoint " ++ squote ++ command ++ squote ++ " nautobot")
      [("pty", KwVal.pybool true)] with ⟨fc, r2⟩
  cases r2 <;> rfl

/-- C1: with local mode falsy and a successful running-services query,
the command passed to the composer is the exec-into-running form exactly
when nautobot appears in the captured stdout, and the fresh-disposable
run form with the command substituted as single-quoted entrypoint when
it does not; the attempted invocations are exactly the query and the
composed dispatch command. -/
theorem run_command_nonlocal_dispatch (ctx : Context) (command : String)
    (kwargs : List (String × KwVal)) (results : RunResult)
    (hloc : is_truthy ctx.cfg.local_mode = Except.ok false)
    (hq : (docker_compose ctx "ps --services --filter status=running"
            [("hide", KwVal.pystr "out")]).2 = Except.ok results) :
    (run_command ctx command kwargs).1 =
      [(docker_compose ctx "ps --services --filter status=running"
          [("hide", KwVal.pystr "out")]).1,
       (docker_compose ctx
          (if strIn "nautobot" results.stdout then "exec nautobot " ++ command
           else "run --entrypoint " ++ squote ++ command ++ squote ++ " nautobot")
          [("pty", KwVal.pybool true)]).1] := by
  rw [run_command_nonlocal_trace ctx command kwargs results hloc hq]

/-- Concrete evaluation of run_command_nonlocal_dispatch on ctxRunning,
whose services listing names nautobot: the exec form is composed. -/
theorem run_command_nonlocal_dispatch_witness :
    (run_command ctxRunning "bash" []).1 =
      [{ cmd := "docker-compose --project-name nautobot_plugin_nornir"
            ++ " --project-directory \"development\" ps --services --filter status=running"
         env := some [("NAUTOBOT_VER", "v1.0.0a1"), ("PYTHON_VER", "3.6")]
         kwargs := [("hide", KwVal.pystr "out")] },
       { cmd := "docker-compose --project-name nautobot_plugin_nornir"
            ++ " --project-directory \"development\" exec nautobot bash"
         env := some [("NAUTOBOT_VER", "v1.0.0a1"), ("PYTHON_VER", "3.6")]
         kwargs := [("pty", KwVal.pybool true)] }] := by
  rw [run_command_nonlocal_dispatch ctxRunning "bash" [] { stdout := "nautobot\n" } rfl rfl]
  rfl

/-- Lines of a character list split at the separator, mirroring how a
services listing is one service name per line. -/
def splitChar (sep : Char) : List Char → List (List Char)
  | [] => [[]]
  | c :: rest =>
    match splitChar sep rest with
    | [] => if c = sep then [[], []] else [[c]]
    | g :: gs => if c = sep then [] :: g :: gs else (c :: g) :: gs

/-- Lines of the captured stdout of the running-services query: one
service name per line. -/
def stdoutLines (s : String) : List String :=
  (splitChar (Char.ofNat 10) s.toList).map List.asString

/-- C8: the running test is plain substring containment on the captured
stdout, so whenever the string nautobot occurs anywhere in that output
the exec-into-running form is composed, even when no line of the output,
hence no service name, is exactly nautobot. -/
theorem run_command_substring_decision (ctx : Context) (command : String)
    (kwargs : List (String × KwVal)) (results : RunResult)
    (hloc : is_truthy ctx.cfg.local_mode = Except.ok false)
    (hq : (docker_compose ctx "ps --services --filter status=running"
            [("hide", KwVal.pystr "out")]).2 = Except.ok results)
    (hsub : strIn "nautobot" results.stdout = true)
    (_hnoexact : "nautobot" ∉ stdoutLines results.stdout) :
    (run_command ctx command kwargs).1 =
      [(docker_compose ctx "ps --services --filter status=running"
          [("hide", KwVal.pystr "out")]).1,
       (docker_compose ctx ("exec nautobot " ++ command)
          [("pty", KwVal.pybool true)]).1] := by
  rw [run_command_nonlocal_trace ctx command kwargs results hloc hq]
  simp [hsub]

/-- Concrete evaluation of run_command_substring_decision on ctxWorker,
whose only listed service is nautobot-worker: no line equals nautobot,
yet the exec form is still composed. -/
theorem run_command_substring_decision_witness :
    (run_command ctxWorker "bash" []).1 =
      [{ cmd := "docker-compose --project-name nautobot_plugin_nornir"
            ++ " --project-directory \"development\" ps --services --filter status=running"
         env := some [("NAUTOBOT_VER", "v1.0.0a1"), ("PYTHON_VER", "3.6")]
         kwargs := [("hide", KwVal.pystr "out")] },
       { cmd := "docker-compose --project-name nautobot_plugin_nornir"
            ++ " --project-directory \"development\" exec nautobot bash"
         env := some [("NAUTOBOT_VER", "v1.0.0a1"), ("PYTHON_VER", "3.6")]
         kwargs := [("pty", KwVal.pybool true)] }] := by
  rw [run_command_substring_decision ctxWorker "bash" []
      { stdout := "nautobot-worker\n" } rfl rfl (by decide) (by decide)]
  rfl

/-- C9: with local mode falsy the caller-supplied options are discarded:
the outcome of run_command does not depend on them at all, the query runs
with the single option hide set to out, and the final composed command
runs with the single option pty set to True. -/
theorem run_command_kwargs_discarded (ctx : Context) (command : String)
    (kw1 kw2 : List (String × KwVal)) (results : RunResult)
    (hloc : is_truthy ctx.cfg.local_mode = Except.ok false)
    (hq : (docker_compose ctx "ps --services --filter status=running"
            [("hide", KwVal.pystr "out")]).2 = Except.ok results) :
    run_command ctx command kw1 = run_command ctx command kw2
    ∧ (run_command ctx command kw1).1.map RunCall.kwargs
        = [[("hide", KwVal.pystr "out")], [("pty", KwVal.pybool true)]] := by
  constructor
  · rw [run_command_nonlocal_trace ctx command kw1 results hloc hq,
        run_command_nonlocal_trace ctx command kw2 results hloc hq]
  · rw [run_command_nonlocal_trace ctx command kw1 results hloc hq]
    rfl

/-- Concrete evaluation of run_command_kwargs_discarded on ctxRunning
with a caller-supplied warn option against no options. -/
theorem run_command_kwargs_discarded_witness :
    run_command ctxRunning "bash" [("warn", KwVal.pybool true)]
        = run_command ctxRunning "bash" []
    ∧ (run_command ctxRunning "bash" [("warn", KwVal.pybool true)]).1.map RunCall.kwargs
        = [[("hide", KwVal.pystr "out")], [("pty", KwVal.pybool true)]] :=
  run_command_kwargs_discarded ctxRunning "bash" [("warn", KwVal.pybool true)] []
    { stdout := "nautobot\n" } rfl rfl

/-- C4 counterexample: in local mode the underlying run succeeds with a
result object, yet run_command evaluates to None (embedded as Except.ok
none) rather than returning that result: neither branch of the Python
function has a return statement. -/
theorem run_command_local_result_cex :
    ctxLocal.run { cmd := "bash", env := none, kwargs := [] }
        = Except.ok { stdout := "hello" }
    ∧ (run_command ctxLocal "bash" []).2 = Except.ok none
    ∧ (run_command ctxLocal "bash" []).2 ≠ Except.ok (some { stdout := "hello" }) := by
  refine ⟨rfl, rfl, fun h => ?_⟩
  have h2 : (Except.ok none : Except Err (Option RunResult))
      = Except.ok (some { stdout := "hello" }) := h
  simp at h2

/-- C4 amended: with local mode truthy the command is executed directly
through the run capability with exactly the caller-supplied options and
no running-services query is issued, but the result of that run is
discarded: the helper returns None on success, while a raised failure
still propagates unchanged. -/
theorem run_command_local_amended (ctx : Context) (command : String)
    (kwargs : List (String × KwVal))
    (hloc : is_truthy ctx.cfg.local_mode = Except.ok true) :
    run_command ctx command kwargs =
      ([{ cmd := command, env := none, kwargs := kwargs }],
       match ctx.run { cmd := command, env := none, kwargs := kwargs } with
       | Except.error e => Except.error e
       | Except.ok _ => Except.ok none) := by
  unfold run_command
  rw [hloc]
  dsimp only
  rcases h : ctx.run { cmd := command, env := none, kwargs := kwargs } with e | v <;> rfl

/-- Concrete evaluation of run_command_local_amended on ctxLocal. -/
theorem run_command_local_amended_witness :
    run_command ctxLocal "bash" [] =
      ([{ cmd := "bash", env := none, kwargs := [] }], Except.ok none) := by
  rw [run_command_local_amended ctxLocal "bash" [] rfl]
  rfl

/-- C7: the aggregate tests task is exactly the halt-at-first-failure
sequencing of the fixed ordered list black, bandit, pydocstyle,
yamllint, flake8, pylint, unittest; moreover the sequencer stops at a
failing task, propagating its failure unchanged and attempting nothing
from the remainder of the list. -/
theorem tests_runs_fixed_sequence :
    (∀ ctx : Context, tests ctx = runSeq testsSubtasks ctx)
    ∧ ∀ (ctx : Context) (t : TaskFn) (rest : List TaskFn) (tr : List RunCall) (e : Err),
        t ctx = (tr, Except.error e) → runSeq (t :: rest) ctx = (tr, Except.error e) := by
  constructor
  · intro ctx
    simp only [testsSubtasks, runSeq, tests]
    rcases h1 : black ctx false with ⟨t1, r1⟩
    rcases r1 with e1 | v1
    · rfl
    rcases h2 : bandit ctx with ⟨t2, r2⟩
    rcases r2 with e2 | v2
    · simp [List.append_assoc]
    rcases h3 : pydocstyle ctx with ⟨t3, r3⟩
    rcases r3 with e3 | v3
    · simp [List.append_assoc]
    rcases h4 : yamllint ctx with ⟨t4, r4⟩
    rcases r4 with e4 | v4
    · simp [List.append_assoc]
    rcases h5 : flake8_second ctx with ⟨t5, r5⟩
    rcases r5 with e5 | v5
    · simp [List.append_assoc]
    rcases h6 : pylint ctx with ⟨t6, r6⟩
    rcases r6 with e6 | v6
    · simp [List.append_assoc]
    rcases h7 : unittest ctx false "nautobot_plugin_nornir" false true with ⟨t7, r7⟩
    rcases r7 with e7 | v7
    · simp [List.append_assoc]
    · simp [List.append_assoc]
  · intro ctx t rest tr e h
    simp only [runSeq, h]

/-- Concrete evaluation of tests_runs_fixed_sequence on ctxFail, whose
run capability always raises: the sequence is the refinement target and
it halts at the very first sub-task, black, attempting nothing else. -/
theorem tests_runs_fixed_sequence_witness :
    tests ctxFail = runSeq testsSubtasks ctxFail
    ∧ runSeq testsSubtasks ctxFail
        = ([{ cmd := "black --check --diff .", env := none, kwargs := [] }],
           Except.error (Err.unexpectedExit "black --check --diff .")) := by
  constructor
  · exact tests_runs_fixed_sequence.1 ctxFail
  · exact tests_runs_fixed_sequence.2 ctxFail (fun c => black c false)
      [bandit, pydocstyle, yamllint, flake8_second, pylint,
       fun c => unittest c false "nautobot_plugin_nornir" false true]
      [{ cmd := "black --check --diff .", env := none, kwargs := [] }]
      (Err.unexpectedExit "black --check --diff .") rfl
